import Mathlib

/-!
Shallow embedding of the unc-airdrop contract (src/unc-airdrop/src/lib.rs).

The contract keeps an escrow ledger `accounts : LookupMap<PublicKey, UncToken>`
and exposes the entry points `send`, `claim`, `create_account_and_claim`,
`create_account`, `create_account_advanced`, the continuations
`on_account_created` and `on_account_created_and_claimed`, and the reads
`get_key_balance` / `get_key_information`.

Modelling choices:
- `PublicKey` is opaque in the source; it is modelled as `Nat`.
- `UncToken` is a u128 amount of attounc; it is modelled as `Nat` together
  with explicit saturating arithmetic at `2 ^ 128 - 1` (`satAdd`, `satSub`),
  mirroring `saturating_add` / `saturating_sub`.
- The host environment (`env::current_account_id`, `env::predecessor_account_id`,
  `env::signer_account_pk`, `env::attached_deposit`, `env::is_valid_account_id`,
  and the promise results visible to a callback) is a record `Env`.
  Account-id validation is host-supplied and is modelled as a boolean function
  carried by the environment.
- A Rust `Promise` chain is modelled as a `Dispatch`: a target account, the
  ordered batch of actions, and an optional registered callback.  Each entry
  point returns the state it leaves behind together with either the list of
  dispatched promises (and, for callbacks, the returned boolean) or the panic
  it aborts with.  `assert!` failures in entry points are `PreconditionError`,
  `Option::expect` on a missing ledger key is `UnknownKeyError`, and the
  promise-result-count assertion in `is_promise_success` is
  `ProtocolViolation`.  State is threaded statement by statement, so an abort
  returns exactly the state at the abort point, as the source's panic would
  leave it before the host's call-level rollback.
-/

namespace Airdrop

/-- Redemption public keys are opaque fixed-format byte sequences in the
source; modelled as naturals. -/
abbrev PublicKey := Nat

/-- Account identifiers are textual. -/
abbrev AccountId := String

/-- The largest u128 value, `2 ^ 128 - 1`, the carrier bound of `UncToken`. -/
def U128_MAX : Nat := 340282366920938463463374607431768211455

/-- u128 `saturating_add`. -/
def satAdd (a b : Nat) : Nat := min (a + b) U128_MAX

/-- u128 `saturating_sub` (`Nat` subtraction already saturates at zero). -/
def satSub (a b : Nat) : Nat := a - b

/-- `ACCESS_KEY_ALLOWANCE`: 1_000_000_000_000_000_000_000_000 attounc,
the fee taken from each deposit to fund the claim access key. -/
def ACCESS_KEY_ALLOWANCE : Nat := 1000000000000000000000000

/-- `ACCESS_KEY_METHOD_NAMES`: methods callable by the function-call access key. -/
def ACCESS_KEY_METHOD_NAMES : String := "claim,create_account_and_claim"

/-- The escrow ledger, an association list with at most one entry per key
(every insertion erases the key first, as `LookupMap::insert` replaces). -/
abbrev Ledger := List (PublicKey × Nat)

/-- `LookupMap::get`. -/
def lookupKey : Ledger → PublicKey → Option Nat
  | [], _ => none
  | (k, v) :: rest, key => if k = key then some v else lookupKey rest key

/-- Drop every entry for `key`. -/
def eraseKey : Ledger → PublicKey → Ledger
  | [], _ => []
  | (k, v) :: rest, key =>
      if k = key then eraseKey rest key else (k, v) :: eraseKey rest key

/-- `LookupMap::insert`: replaces any existing value for `key`. -/
def insertKey (l : Ledger) (key : PublicKey) (v : Nat) : Ledger :=
  (key, v) :: eraseKey l key

/-- `LookupMap::remove`: returns the removed value and the remaining ledger,
or `none` when the key is absent. -/
def removeKey (l : Ledger) (key : PublicKey) : Option (Nat × Ledger) :=
  match lookupKey l key with
  | none => none
  | some v => some (v, eraseKey l key)

/-- The contract state: the escrow ledger. -/
structure AirDrop where
  accounts : Ledger
deriving DecidableEq

/-- Host-provided context of one entry-point invocation. -/
structure Env where
  current_account_id : AccountId
  predecessor_account_id : AccountId
  signer_account_pk : PublicKey
  attached_deposit : Nat
  is_valid_account_id : AccountId → Bool
  promise_results : List Bool

/-- The panics the contract can abort with, per the spec's error taxonomy. -/
inductive ContractError
  | PreconditionError (msg : String)
  | UnknownKeyError
  | ProtocolViolation (msg : String)
deriving DecidableEq

/-- `unc_sdk::Allowance`. -/
inductive Allowance
  | limited (amount : Nat)
  | unlimited
deriving DecidableEq

/-- `Allowance::limited(x).unwrap_or(Allowance::Unlimited)`: `limited`
rejects a zero allowance, falling back to `Unlimited`. -/
def Allowance.limitedOrUnlimited (x : Nat) : Allowance :=
  if x = 0 then .unlimited else .limited x

/-- One action of a promise batch. -/
inductive Action
  | create_account
  | transfer (amount : Nat)
  | add_full_access_key (pk : PublicKey)
  | add_access_key_allowance (pk : PublicKey) (allowance : Allowance)
      (receiver_id : AccountId) (method_names : String)
  | delete_key (pk : PublicKey)
  | deploy_contract (code : List Nat)
deriving DecidableEq

/-- A callback registered with `.then(...)` on a promise. -/
inductive Callback
  | on_account_created (predecessor_account_id : AccountId) (amount : Nat)
  | on_account_created_and_claimed (amount : Nat)
deriving DecidableEq

/-- A dispatched promise: target account, batch of actions, optional callback. -/
structure Dispatch where
  target : AccountId
  actions : List Action
  callback : Option Callback
deriving DecidableEq

/-- Equality of fallible results is decidable, so concrete runs can be
settled by evaluation. -/
instance {ε α : Type} [DecidableEq ε] [DecidableEq α] : DecidableEq (Except ε α) :=
  fun x y =>
    match x, y with
    | .ok a, .ok b =>
        decidable_of_iff (a = b)
          ⟨congrArg Except.ok, fun h => by injection h⟩
    | .ok _, .error _ => isFalse (fun h => by injection h)
    | .error _, .ok _ => isFalse (fun h => by injection h)
    | .error e, .error f =>
        decidable_of_iff (e = f)
          ⟨congrArg Except.error, fun h => by injection h⟩

/-- `send(public_key)`: sponsor a key.  Requires the attached deposit to
strictly exceed `ACCESS_KEY_ALLOWANCE`; credits the remainder on top of any
existing balance (saturating), and grants the scoped access key on the
contract itself. -/
def send (st : AirDrop) (env : Env) (public_key : PublicKey) :
    AirDrop × Except ContractError (List Dispatch) :=
  if env.attached_deposit > ACCESS_KEY_ALLOWANCE then
    let value := (lookupKey st.accounts public_key).getD 0
    let accounts := insertKey st.accounts public_key
      (satSub (satAdd value env.attached_deposit) ACCESS_KEY_ALLOWANCE)
    (⟨accounts⟩,
      .ok [⟨env.current_account_id,
            [Action.add_access_key_allowance public_key
               (Allowance.limitedOrUnlimited ACCESS_KEY_ALLOWANCE)
               env.current_account_id ACCESS_KEY_METHOD_NAMES],
            none⟩])
  else
    (st, .error (.PreconditionError
      "Attached deposit must be greater than ACCESS_KEY_ALLOWANCE"))

/-- `claim(account_id)`: capability-gated; removes the signer key's escrow
entry, deletes the signer's access key on the contract, and transfers the
amount to `account_id`.  No callback is registered. -/
def claim (st : AirDrop) (env : Env) (account_id : AccountId) :
    AirDrop × Except ContractError (List Dispatch) :=
  if env.predecessor_account_id = env.current_account_id then
    if env.is_valid_account_id account_id then
      match removeKey st.accounts env.signer_account_pk with
      | some (amount, accounts) =>
          (⟨accounts⟩,
            .ok [⟨env.current_account_id,
                  [Action.delete_key env.signer_account_pk], none⟩,
                 ⟨account_id, [Action.transfer amount], none⟩])
      | none => (st, .error .UnknownKeyError)
    else (st, .error (.PreconditionError "Invalid account id"))
  else (st, .error (.PreconditionError "Claim only can come from this account"))

/-- `create_account_and_claim(new_account_id, new_public_key)`:
capability-gated; removes the signer key's escrow entry and dispatches the
composite promise (create account, add full-access key, transfer the amount)
with the continuation `on_account_created_and_claimed(amount)`. -/
def create_account_and_claim (st : AirDrop) (env : Env)
    (new_account_id : AccountId) (new_public_key : PublicKey) :
    AirDrop × Except ContractError (List Dispatch) :=
  if env.predecessor_account_id = env.current_account_id then
    if env.is_valid_account_id new_account_id then
      match removeKey st.accounts env.signer_account_pk with
      | some (amount, accounts) =>
          (⟨accounts⟩,
            .ok [⟨new_account_id,
                  [Action.create_account,
                   Action.add_full_access_key new_public_key,
                   Action.transfer amount],
                  some (.on_account_created_and_claimed amount)⟩])
      | none => (st, .error .UnknownKeyError)
    else (st, .error (.PreconditionError "Invalid account id"))
  else
    (st, .error (.PreconditionError
      "Create account and claim only can come from this account"))

/-- `create_account(new_account_id, new_public_key)`: deposit-funded account
creation, independent of the escrow ledger; registers
`on_account_created(predecessor, amount)`. -/
def create_account (st : AirDrop) (env : Env)
    (new_account_id : AccountId) (new_public_key : PublicKey) :
    AirDrop × Except ContractError (List Dispatch) :=
  if env.is_valid_account_id new_account_id then
    let amount := env.attached_deposit
    (st, .ok [⟨new_account_id,
               [Action.create_account,
                Action.add_full_access_key new_public_key,
                Action.transfer amount],
               some (.on_account_created env.predecessor_account_id amount)⟩])
  else (st, .error (.PreconditionError "Invalid account id"))

/-- Modelled from the spec: the repository's `models.rs` (declared by
`mod models;` in lib.rs) is not under src/.  A scoped credential of
`CreateAccountOptions`: public key, spend ceiling, target identity and
allow-list, exactly as consumed by `create_account_advanced`. -/
structure LimitedAccessKey where
  public_key : PublicKey
  allowance : Nat
  receiver_id : AccountId
  method_names : String
deriving DecidableEq

/-- Modelled from the spec: the repository's `models.rs` is not under src/.
Options of `create_account_advanced`: zero or more full-control credentials,
zero or more scoped credentials, and optional executable code, each field
optional. -/
structure CreateAccountOptions where
  full_access_keys : Option (List PublicKey)
  limited_access_keys : Option (List LimitedAccessKey)
  contract_bytes : Option (List Nat)
deriving DecidableEq

/-- `create_account_advanced(new_account_id, options)`: requires at least one
of the three option fields to be present (tested with `Option::is_some`);
dispatches one composite promise creating the account, transferring the
deposit, attaching the requested keys, optionally deploying code, and
registers `on_account_created(predecessor, amount)`. -/
def create_account_advanced (st : AirDrop) (env : Env)
    (new_account_id : AccountId) (options : CreateAccountOptions) :
    AirDrop × Except ContractError (List Dispatch) :=
  let is_some_option := options.contract_bytes.isSome
    || options.full_access_keys.isSome || options.limited_access_keys.isSome
  if is_some_option then
    let amount := env.attached_deposit
    let base : List Action := [Action.create_account, Action.transfer amount]
    let withFull := base ++
      (match options.full_access_keys with
       | some keys => keys.map (fun k => Action.add_full_access_key k)
       | none => [])
    let withLimited := withFull ++
      (match options.limited_access_keys with
       | some keys => keys.map (fun k =>
           Action.add_access_key_allowance k.public_key
             (Allowance.limitedOrUnlimited k.allowance)
             k.receiver_id k.method_names)
       | none => [])
    let withCode := withLimited ++
      (match options.contract_bytes with
       | some bytes => [Action.deploy_contract bytes]
       | none => [])
    (st, .ok [⟨new_account_id, withCode,
               some (.on_account_created env.predecessor_account_id amount)⟩])
  else
    (st, .error (.PreconditionError
      "Cannot create account with no options. Please specify either contract bytes, full access keys, or limited access keys."))

/-- `is_promise_success()`: asserts exactly one prior promise result and
reports whether it was successful. -/
def is_promise_success (env : Env) : Except ContractError Bool :=
  match env.promise_results with
  | [b] => .ok b
  | _ => .error (.ProtocolViolation "Contract expected a result on the callback")

/-- `on_account_created(predecessor_account_id, amount)`: contract-only
callback; on remote failure refunds `amount` to the recorded predecessor,
on success does nothing; returns the success boolean. -/
def on_account_created (st : AirDrop) (env : Env)
    (predecessor_account_id : AccountId) (amount : Nat) :
    AirDrop × Except ContractError (List Dispatch × Bool) :=
  if env.predecessor_account_id = env.current_account_id then
    match is_promise_success env with
    | .error e => (st, .error e)
    | .ok creation_succeeded =>
        if creation_succeeded then (st, .ok ([], true))
        else
          (st, .ok ([⟨predecessor_account_id, [Action.transfer amount], none⟩],
            false))
  else
    (st, .error (.PreconditionError "Callback can only be called from the contract"))

/-- `on_account_created_and_claimed(amount)`: contract-only callback; on
remote success deletes the signer's access key (finalizing), on failure
writes `amount` back into the ledger under the signer key with
`LookupMap::insert` (which replaces); returns the success boolean. -/
def on_account_created_and_claimed (st : AirDrop) (env : Env) (amount : Nat) :
    AirDrop × Except ContractError (List Dispatch × Bool) :=
  if env.predecessor_account_id = env.current_account_id then
    match is_promise_success env with
    | .error e => (st, .error e)
    | .ok creation_succeeded =>
        if creation_succeeded then
          (st, .ok ([⟨env.current_account_id,
                      [Action.delete_key env.signer_account_pk], none⟩], true))
        else
          (⟨insertKey st.accounts env.signer_account_pk amount⟩, .ok ([], false))
  else
    (st, .error (.PreconditionError "Callback can only be called from the contract"))

/-- `get_key_balance(key)` (the spec's `peek`): the balance for `key`,
panicking when the key is absent. -/
def get_key_balance (st : AirDrop) (key : PublicKey) : Except ContractError Nat :=
  match lookupKey st.accounts key with
  | some v => .ok v
  | none => .error .UnknownKeyError

/-- `KeyInfo` returned by `get_key_information` (declared in the missing
`models.rs`; its one field is visible at lib.rs line 243). -/
structure KeyInfo where
  balance : Nat
deriving DecidableEq

/-- `get_key_information(key)`: structured success/absence result. -/
def get_key_information (st : AirDrop) (key : PublicKey) :
    Except String KeyInfo :=
  match lookupKey st.accounts key with
  | some balance => .ok ⟨balance⟩
  | none => .error "Key is missing"

/-- Effect of one batch action on the set of access keys installed on the
contract account (the scoped capabilities). -/
def applyKeyAction (keys : List PublicKey) : Action → List PublicKey
  | .add_access_key_allowance pk _ _ _ =>
      if keys.contains pk then keys else keys ++ [pk]
  | .add_full_access_key pk =>
      if keys.contains pk then keys else keys ++ [pk]
  | .delete_key pk => keys.filter (fun k => k ≠ pk)
  | _ => keys

/-- Effect of one dispatched promise on the contract account's access keys:
only batches targeting the contract itself touch them. -/
def applyDispatch (contract_id : AccountId) (keys : List PublicKey)
    (d : Dispatch) : List PublicKey :=
  if d.target = contract_id then d.actions.foldl applyKeyAction keys else keys

/-- Effect of a list of dispatched promises on the contract's access keys. -/
def applyDispatches (contract_id : AccountId) (keys : List PublicKey)
    (ds : List Dispatch) : List PublicKey :=
  ds.foldl (applyDispatch contract_id) keys

/-- Dispatches of a non-aborting entry-point result. -/
def okDispatches : Except ContractError (List Dispatch) → List Dispatch
  | .ok ds => ds
  | .error _ => []

/-- Dispatches of a non-aborting callback result. -/
def okDispatchesCb : Except ContractError (List Dispatch × Bool) → List Dispatch
  | .ok p => p.1
  | .error _ => []

/-! Ledger lemmas. -/

theorem lookupKey_eraseKey_self (l : Ledger) (k : PublicKey) :
    lookupKey (eraseKey l k) k = none := by
  induction l with
  | nil => rfl
  | cons p rest ih =>
      obtain ⟨k0, v0⟩ := p
      by_cases h : k0 = k
      · simpa [eraseKey, h] using ih
      · simp [eraseKey, h, lookupKey, ih]

theorem lookupKey_eraseKey_ne (l : Ledger) (k k' : PublicKey) (h : k' ≠ k) :
    lookupKey (eraseKey l k) k' = lookupKey l k' := by
  induction l with
  | nil => rfl
  | cons p rest ih =>
      obtain ⟨k0, v0⟩ := p
      by_cases h0 : k0 = k
      · subst h0
        simp [eraseKey, lookupKey, Ne.symm h, ih]
      · simp [eraseKey, h0, lookupKey, ih]

theorem lookupKey_insertKey_self (l : Ledger) (k : PublicKey) (v : Nat) :
    lookupKey (insertKey l k v) k = some v := by
  simp [insertKey, lookupKey]

theorem lookupKey_insertKey_ne (l : Ledger) (k k' : PublicKey) (v : Nat)
    (h : k' ≠ k) :
    lookupKey (insertKey l k v) k' = lookupKey l k' := by
  simp [insertKey, lookupKey, Ne.symm h, lookupKey_eraseKey_ne l k k' h]

/-! Concrete environments used to instantiate the theorems. -/

/-- A host validator accepting every account id. -/
def validAll : AccountId → Bool := fun _ => true

/-- A capability-gated call into the contract, signed by key 1. -/
def envClaimW : Env := ⟨"airdrop", "airdrop", 1, 0, validAll, []⟩

/-- A callback invocation whose one prior remote result is a failure. -/
def envCbFailW : Env := ⟨"airdrop", "airdrop", 1, 0, validAll, [false]⟩

/-- C1: if `create_account_and_claim` debits the escrowed amount `a` of the
signer key and the dispatched composite remote operation fails, and no other
operation touches the key in between, then after `on_account_created_and_claimed`
runs, `peek` of the key returns exactly `a` — full restoration, no loss, no
duplication. -/
theorem C1_compensation_round_trip (st : AirDrop) (env env2 : Env)
    (new_account_id : AccountId) (new_public_key : PublicKey) (a : Nat)
    (hp : env.predecessor_account_id = env.current_account_id)
    (hv : env.is_valid_account_id new_account_id = true)
    (ha : lookupKey st.accounts env.signer_account_pk = some a)
    (h2p : env2.predecessor_account_id = env2.current_account_id)
    (h2r : env2.promise_results = [false])
    (h2k : env2.signer_account_pk = env.signer_account_pk) :
    create_account_and_claim st env new_account_id new_public_key =
      (⟨eraseKey st.accounts env.signer_account_pk⟩,
        .ok [⟨new_account_id,
              [Action.create_account, Action.add_full_access_key new_public_key,
               Action.transfer a],
              some (.on_account_created_and_claimed a)⟩]) ∧
    get_key_balance
      (on_account_created_and_claimed
        ⟨eraseKey st.accounts env.signer_account_pk⟩ env2 a).1
      env.signer_account_pk = .ok a := by
  constructor
  · simp [create_account_and_claim, hp, hv, removeKey, ha]
  · simp [on_account_created_and_claimed, h2p, h2r, is_promise_success, h2k,
      get_key_balance, lookupKey_insertKey_self]

/-- C1 witness: concrete run at ledger `[(1, 42)]`. -/
theorem C1_compensation_round_trip_witness :
    create_account_and_claim ⟨[(1, 42)]⟩ envClaimW "bob.unc" 9 =
      (⟨eraseKey [(1, 42)] 1⟩,
        .ok [⟨"bob.unc",
              [Action.create_account, Action.add_full_access_key 9,
               Action.transfer 42],
              some (.on_account_created_and_claimed 42)⟩]) ∧
    get_key_balance
      (on_account_created_and_claimed ⟨eraseKey [(1, 42)] 1⟩ envCbFailW 42).1 1 =
      .ok 42 :=
  C1_compensation_round_trip ⟨[(1, 42)]⟩ envClaimW envCbFailW "bob.unc" 9 42
    rfl rfl (by decide) rfl rfl rfl

/-- C2: once `claim` or `create_account_and_claim` has debited a key,
`peek` of that key fails with `UnknownKeyError`, and a second claim attempt
signed with the same key (through either claim path) fails with
`UnknownKeyError` rather than being a silent no-op, until a compensation
re-credits the key. -/
theorem C2_claim_drains_exactly (st : AirDrop) (env : Env)
    (account_id new_account_id : AccountId) (new_public_key : PublicKey)
    (a : Nat)
    (ha : lookupKey st.accounts env.signer_account_pk = some a)
    (hp : env.predecessor_account_id = env.current_account_id)
    (hv : env.is_valid_account_id account_id = true)
    (hv2 : env.is_valid_account_id new_account_id = true) :
    (get_key_balance (claim st env account_id).1 env.signer_account_pk =
        .error .UnknownKeyError ∧
      claim (claim st env account_id).1 env account_id =
        ((claim st env account_id).1, .error .UnknownKeyError) ∧
      create_account_and_claim (claim st env account_id).1 env new_account_id
          new_public_key =
        ((claim st env account_id).1, .error .UnknownKeyError)) ∧
    (get_key_balance
        (create_account_and_claim st env new_account_id new_public_key).1
        env.signer_account_pk = .error .UnknownKeyError ∧
      claim (create_account_and_claim st env new_account_id new_public_key).1
          env account_id =
        ((create_account_and_claim st env new_account_id new_public_key).1,
          .error .UnknownKeyError)) := by
  have hclaim : (claim st env account_id).1 =
      ⟨eraseKey st.accounts env.signer_account_pk⟩ := by
    simp [claim, hp, hv, removeKey, ha]
  have hcac : (create_account_and_claim st env new_account_id new_public_key).1 =
      ⟨eraseKey st.accounts env.signer_account_pk⟩ := by
    simp [create_account_and_claim, hp, hv2, removeKey, ha]
  refine ⟨⟨?_, ?_, ?_⟩, ?_, ?_⟩
  · rw [hclaim]
    simp [get_key_balance, lookupKey_eraseKey_self]
  · rw [hclaim]
    simp [claim, hp, hv, removeKey, lookupKey_eraseKey_self]
  · rw [hclaim]
    simp [create_account_and_claim, hp, hv2, removeKey, lookupKey_eraseKey_self]
  · rw [hcac]
    simp [get_key_balance, lookupKey_eraseKey_self]
  · rw [hcac]
    simp [claim, hp, hv, removeKey, lookupKey_eraseKey_self]

/-- C2 witness: concrete double-claim at ledger `[(1, 42)]`. -/
theorem C2_claim_drains_exactly_witness :
    get_key_balance (claim ⟨[(1, 42)]⟩ envClaimW "bob").1 1 =
      .error .UnknownKeyError ∧
    claim (claim ⟨[(1, 42)]⟩ envClaimW "bob").1 envClaimW "bob" =
      ((claim ⟨[(1, 42)]⟩ envClaimW "bob").1, .error .UnknownKeyError) :=
  ⟨(C2_claim_drains_exactly ⟨[(1, 42)]⟩ envClaimW "bob" "bob.unc" 9 42
      (by decide) rfl rfl rfl).1.1,
    (C2_claim_drains_exactly ⟨[(1, 42)]⟩ envClaimW "bob" "bob.unc" 9 42
      (by decide) rfl rfl rfl).1.2.1⟩

/-- A callback invocation whose one prior remote result is a success. -/
def envCbOkW : Env := ⟨"airdrop", "airdrop", 1, 0, validAll, [true]⟩

/-- C3 counterexample: with an entry `(1, 5)` already present at callback
time, the failure branch of `on_account_created_and_claimed` with amount `7`
leaves balance `7`, not the claimed `5 + 7`: the insert replaces rather than
credits. -/
theorem C3_counterexample :
    on_account_created_and_claimed ⟨[(1, 5)]⟩ envCbFailW 7 =
      (⟨[(1, 7)]⟩, .ok ([], false)) ∧
    get_key_balance
      (on_account_created_and_claimed ⟨[(1, 5)]⟩ envCbFailW 7).1 1 ≠
      .ok (5 + 7) := by
  constructor
  · rfl
  · intro h
    simp [on_account_created_and_claimed, envCbFailW, is_promise_success,
      get_key_balance, insertKey, eraseKey, lookupKey] at h

/-- C3 amended: on remote failure the compensation writes `amount` into the
ledger with `LookupMap::insert`, which replaces: the resulting balance for the
signer key equals `amount` itself, whatever entry was present at callback time
(when the entry is absent, as in the undisturbed saga, this is exactly full
restoration). -/
theorem C3_compensation_overwrites (st : AirDrop) (env : Env) (amount : Nat)
    (hp : env.predecessor_account_id = env.current_account_id)
    (hr : env.promise_results = [false]) :
    on_account_created_and_claimed st env amount =
      (⟨insertKey st.accounts env.signer_account_pk amount⟩, .ok ([], false)) ∧
    get_key_balance (on_account_created_and_claimed st env amount).1
      env.signer_account_pk = .ok amount := by
  have h1 : on_account_created_and_claimed st env amount =
      (⟨insertKey st.accounts env.signer_account_pk amount⟩, .ok ([], false)) := by
    simp [on_account_created_and_claimed, hp, hr, is_promise_success]
  refine ⟨h1, ?_⟩
  rw [h1]
  simp [get_key_balance, lookupKey_insertKey_self]

/-- C3 amended witness: concrete overwrite of the pre-existing entry `(1, 5)`. -/
theorem C3_compensation_overwrites_witness :
    on_account_created_and_claimed ⟨[(1, 5)]⟩ envCbFailW 7 =
      (⟨insertKey [(1, 5)] 1 7⟩, .ok ([], false)) ∧
    get_key_balance
      (on_account_created_and_claimed ⟨[(1, 5)]⟩ envCbFailW 7).1 1 = .ok 7 :=
  C3_compensation_overwrites ⟨[(1, 5)]⟩ envCbFailW 7 rfl rfl

/-- C6: in `on_account_created_and_claimed` the scoped capability of the
signer key is revoked exactly when the prior remote result is success, and in
that branch the escrow ledger is left unchanged; on failure no promise is
dispatched at all (the capability is untouched) and only the signer key's
ledger entry is modified. -/
theorem C6_finalize_frame (st : AirDrop) (env : Env) (amount : Nat) (b : Bool)
    (hp : env.predecessor_account_id = env.current_account_id)
    (hr : env.promise_results = [b]) :
    (b = true → on_account_created_and_claimed st env amount =
      (st, .ok ([⟨env.current_account_id,
                  [Action.delete_key env.signer_account_pk], none⟩], true))) ∧
    (b = false →
      on_account_created_and_claimed st env amount =
        (⟨insertKey st.accounts env.signer_account_pk amount⟩, .ok ([], false)) ∧
      ∀ k, k ≠ env.signer_account_pk →
        lookupKey (insertKey st.accounts env.signer_account_pk amount) k =
          lookupKey st.accounts k) := by
  constructor
  · intro hb
    subst hb
    simp [on_account_created_and_claimed, hp, hr, is_promise_success]
  · intro hb
    subst hb
    refine ⟨by simp [on_account_created_and_claimed, hp, hr, is_promise_success],
      ?_⟩
    intro k hk
    exact lookupKey_insertKey_ne _ _ _ _ hk

/-- C6 witness: concrete success callback revokes key 1 and keeps the ledger. -/
theorem C6_finalize_frame_witness :
    on_account_created_and_claimed ⟨[(3, 8)]⟩ envCbOkW 7 =
      (⟨[(3, 8)]⟩, .ok ([⟨"airdrop", [Action.delete_key 1], none⟩], true)) :=
  (C6_finalize_frame ⟨[(3, 8)]⟩ envCbOkW 7 true rfl rfl).1 rfl

/-- C7: when the remote operation dispatched by `create_account` or
`create_account_advanced` fails, `on_account_created` dispatches exactly one
transfer of exactly the attached amount back to the recorded original caller
and leaves the ledger untouched; on success it dispatches nothing; in both
cases it returns the success boolean.  Both initiators register the callback
with the caller's identity and the attached deposit. -/
theorem C7_refund_exactness (st : AirDrop) (env : Env)
    (original_caller : AccountId) (amount : Nat) (b : Bool)
    (hp : env.predecessor_account_id = env.current_account_id)
    (hr : env.promise_results = [b]) :
    on_account_created st env original_caller amount =
      (st, .ok (if b then []
                else [⟨original_caller, [Action.transfer amount], none⟩], b)) ∧
    (∀ (st0 : AirDrop) (env0 : Env) (nid : AccountId) (npk : PublicKey),
      env0.is_valid_account_id nid = true →
      create_account st0 env0 nid npk =
        (st0, .ok [⟨nid,
                    [Action.create_account, Action.add_full_access_key npk,
                     Action.transfer env0.attached_deposit],
                    some (.on_account_created env0.predecessor_account_id
                      env0.attached_deposit)⟩])) ∧
    (∀ (st0 : AirDrop) (env0 : Env) (nid : AccountId)
        (opts : CreateAccountOptions) (ds : List Dispatch),
      (create_account_advanced st0 env0 nid opts).2 = .ok ds →
      ∃ actions, ds = [⟨nid, actions,
        some (.on_account_created env0.predecessor_account_id
          env0.attached_deposit)⟩]) := by
  refine ⟨?_, ?_, ?_⟩
  · cases b <;> simp [on_account_created, hp, hr, is_promise_success]
  · intro st0 env0 nid npk hv0
    simp [create_account, hv0]
  · intro st0 env0 nid opts ds h
    simp only [create_account_advanced] at h
    split at h
    · exact ⟨_, by simpa using h.symm⟩
    · simp at h

/-- C7 witness: concrete failed callback refunds 55 to the original caller. -/
theorem C7_refund_exactness_witness :
    on_account_created ⟨[(1, 42)]⟩ envCbFailW "alice" 55 =
      (⟨[(1, 42)]⟩, .ok ([⟨"alice", [Action.transfer 55], none⟩], false)) :=
  (C7_refund_exactness ⟨[(1, 42)]⟩ envCbFailW "alice" 55 false rfl rfl).1

/-- A non-capability call with a deposit too small to cover the reserve. -/
def envNoDeposit : Env := ⟨"airdrop", "alice", 1, 0, validAll, []⟩

/-- A non-capability call with a small positive deposit. -/
def envDepositW : Env := ⟨"airdrop", "alice", 1, 1000000, validAll, []⟩

/-- C8: `create_account_advanced` fails with the empty-options precondition
error iff all three option fields are absent; when at least one is present it
leaves the state unchanged and dispatches the composite remote operation with
its completion callback. -/
theorem C8_empty_options (st : AirDrop) (env : Env) (nid : AccountId)
    (options : CreateAccountOptions) :
    ((create_account_advanced st env nid options).2 =
        .error (.PreconditionError
          "Cannot create account with no options. Please specify either contract bytes, full access keys, or limited access keys.") ↔
      options.full_access_keys = none ∧ options.limited_access_keys = none ∧
        options.contract_bytes = none) ∧
    (¬ (options.full_access_keys = none ∧ options.limited_access_keys = none ∧
          options.contract_bytes = none) →
      (create_account_advanced st env nid options).1 = st ∧
      ∃ actions, (create_account_advanced st env nid options).2 =
        .ok [⟨nid, actions,
          some (.on_account_created env.predecessor_account_id
            env.attached_deposit)⟩]) := by
  obtain ⟨fa, la, cb⟩ := options
  cases fa <;> cases la <;> cases cb <;>
    simp [create_account_advanced]

/-- C8 witness: one full-access key present suffices to dispatch. -/
theorem C8_empty_options_witness :
    (create_account_advanced ⟨[]⟩ envClaimW "bob.unc" ⟨some [4], none, none⟩).1 =
      ⟨[]⟩ ∧
    ∃ actions,
      (create_account_advanced ⟨[]⟩ envClaimW "bob.unc"
          ⟨some [4], none, none⟩).2 =
        .ok [⟨"bob.unc", actions, some (.on_account_created "airdrop" 0)⟩] :=
  (C8_empty_options ⟨[]⟩ envClaimW "bob.unc" ⟨some [4], none, none⟩).2
    (by decide)

/-- C9: every precondition failure aborts with the ledger exactly as it was:
in `send`, `claim`, `create_account_and_claim` and `create_account_advanced`
each precondition is checked before any ledger mutation, so an abort with
`PreconditionError` returns the unchanged state. -/
theorem C9_preconditions_pure (st : AirDrop) (env : Env) :
    (∀ (pk : PublicKey) (st' : AirDrop) (m : String),
      send st env pk = (st', .error (.PreconditionError m)) → st' = st) ∧
    (∀ (aid : AccountId) (st' : AirDrop) (m : String),
      claim st env aid = (st', .error (.PreconditionError m)) → st' = st) ∧
    (∀ (nid : AccountId) (npk : PublicKey) (st' : AirDrop) (m : String),
      create_account_and_claim st env nid npk =
        (st', .error (.PreconditionError m)) → st' = st) ∧
    (∀ (nid : AccountId) (opts : CreateAccountOptions) (st' : AirDrop)
        (m : String),
      create_account_advanced st env nid opts =
        (st', .error (.PreconditionError m)) → st' = st) := by
  refine ⟨?_, ?_, ?_, ?_⟩
  · intro pk st' m h
    simp only [send] at h
    split at h <;> simp_all
  · intro aid st' m h
    simp only [claim] at h
    split at h
    · split at h
      · split at h <;> simp_all
      · simp_all
    · simp_all
  · intro nid npk st' m h
    simp only [create_account_and_claim] at h
    split at h
    · split at h
      · split at h <;> simp_all
      · simp_all
    · simp_all
  · intro nid opts st' m h
    simp only [create_account_advanced] at h
    split at h <;> simp_all

/-- C9 witness: a too-small deposit aborts `send` and preserves the ledger. -/
theorem C9_preconditions_pure_witness :
    send ⟨[(5, 3)]⟩ envNoDeposit 5 =
      (⟨[(5, 3)]⟩, .error (.PreconditionError
        "Attached deposit must be greater than ACCESS_KEY_ALLOWANCE")) ∧
    (⟨[(5, 3)]⟩ : AirDrop) = ⟨[(5, 3)]⟩ :=
  ⟨by decide,
    (C9_preconditions_pure ⟨[(5, 3)]⟩ envNoDeposit).1 5 ⟨[(5, 3)]⟩
      "Attached deposit must be greater than ACCESS_KEY_ALLOWANCE" (by decide)⟩

/-- C10: the empty-options check tests only field presence: all-Some-but-empty
options (empty key lists, empty code) pass it, dispatching account creation
with no key actions and an empty code deployment, rather than failing with the
empty-options error. -/
theorem C10_some_but_empty_options :
    create_account_advanced ⟨[]⟩ envDepositW "bob.unc"
        ⟨some [], some [], some []⟩ =
      (⟨[]⟩, .ok [⟨"bob.unc",
        [Action.create_account, Action.transfer 1000000,
         Action.deploy_contract []],
        some (.on_account_created "alice" 1000000)⟩]) := rfl

theorem satAdd_eq (a b : Nat) (h : a + b ≤ U128_MAX) : satAdd a b = a + b :=
  Nat.min_eq_left h

theorem send_state_of_none (st : AirDrop) (env : Env) (k : PublicKey)
    (h0 : lookupKey st.accounts k = none)
    (hd : ACCESS_KEY_ALLOWANCE < env.attached_deposit) :
    (send st env k).1 =
      ⟨insertKey st.accounts k
        (satSub (satAdd 0 env.attached_deposit) ACCESS_KEY_ALLOWANCE)⟩ := by
  simp [send, hd, h0]

theorem send_state_of_some (st : AirDrop) (env : Env) (k : PublicKey) (v : Nat)
    (hv : lookupKey st.accounts k = some v)
    (hd : ACCESS_KEY_ALLOWANCE < env.attached_deposit) :
    (send st env k).1 =
      ⟨insertKey st.accounts k
        (satSub (satAdd v env.attached_deposit) ACCESS_KEY_ALLOWANCE)⟩ := by
  simp [send, hd, hv]

theorem get_key_balance_insert (l : Ledger) (k : PublicKey) (v : Nat) :
    get_key_balance ⟨insertKey l k v⟩ k = .ok v := by
  simp [get_key_balance, lookupKey_insertKey_self]

/-- A sponsor call depositing the u128 maximum. -/
def envMaxW : Env := ⟨"airdrop", "alice", 1, U128_MAX, validAll, []⟩

/-- C5 counterexample: with both deposits equal to the u128 maximum (each
strictly above the reserve), saturation makes the final balance
`U128_MAX - ACCESS_KEY_ALLOWANCE`, not `d1 + d2 - 2 * ACCESS_KEY_ALLOWANCE`. -/
theorem C5_counterexample :
    ACCESS_KEY_ALLOWANCE < U128_MAX ∧
    get_key_balance (send (send ⟨[]⟩ envMaxW 7).1 envMaxW 7).1 7 =
      .ok (U128_MAX - ACCESS_KEY_ALLOWANCE) ∧
    U128_MAX - ACCESS_KEY_ALLOWANCE ≠
      U128_MAX + U128_MAX - 2 * ACCESS_KEY_ALLOWANCE := by
  refine ⟨by decide, rfl, by decide⟩

/-- C5 amended: starting from a ledger with no entry for `k`, with each
deposit strictly above the reserve and `d1 + d2 ≤ U128_MAX +
ACCESS_KEY_ALLOWANCE` (so the saturating addition does not saturate),
sponsoring `k` twice accumulates into the one entry:
`peek(k) = d1 + d2 - 2 * ACCESS_KEY_ALLOWANCE`. -/
theorem C5_sponsor_accumulates (st : AirDrop) (env1 env2 : Env)
    (k : PublicKey) (d1 d2 : Nat)
    (h0 : lookupKey st.accounts k = none)
    (h1 : env1.attached_deposit = d1) (h2 : env2.attached_deposit = d2)
    (hd1 : ACCESS_KEY_ALLOWANCE < d1) (hd2 : ACCESS_KEY_ALLOWANCE < d2)
    (hno : d1 + d2 ≤ U128_MAX + ACCESS_KEY_ALLOWANCE) :
    get_key_balance (send (send st env1 k).1 env2 k).1 k =
      .ok (d1 + d2 - 2 * ACCESS_KEY_ALLOWANCE) := by
  have hd1' : ACCESS_KEY_ALLOWANCE < env1.attached_deposit := by
    rw [h1]; exact hd1
  have hd2' : ACCESS_KEY_ALLOWANCE < env2.attached_deposit := by
    rw [h2]; exact hd2
  have hle1 : 0 + d1 ≤ U128_MAX := by omega
  have hs1 : (send st env1 k).1 =
      ⟨insertKey st.accounts k
        (satSub (satAdd 0 d1) ACCESS_KEY_ALLOWANCE)⟩ := by
    rw [send_state_of_none st env1 k h0 hd1', h1]
  have hs2 : (send (send st env1 k).1 env2 k).1 =
      ⟨insertKey (insertKey st.accounts k
          (satSub (satAdd 0 d1) ACCESS_KEY_ALLOWANCE)) k
        (satSub (satAdd (satSub (satAdd 0 d1) ACCESS_KEY_ALLOWANCE) d2)
          ACCESS_KEY_ALLOWANCE)⟩ := by
    rw [hs1,
      send_state_of_some
        ⟨insertKey st.accounts k (satSub (satAdd 0 d1) ACCESS_KEY_ALLOWANCE)⟩
        env2 k (satSub (satAdd 0 d1) ACCESS_KEY_ALLOWANCE)
        (lookupKey_insertKey_self st.accounts k
          (satSub (satAdd 0 d1) ACCESS_KEY_ALLOWANCE)) hd2', h2]
  have e1 : satAdd 0 d1 = 0 + d1 := satAdd_eq _ _ hle1
  have hle2 : satSub (0 + d1) ACCESS_KEY_ALLOWANCE + d2 ≤ U128_MAX := by
    simp only [satSub]
    omega
  have e2 : satAdd (satSub (satAdd 0 d1) ACCESS_KEY_ALLOWANCE) d2 =
      satSub (satAdd 0 d1) ACCESS_KEY_ALLOWANCE + d2 := by
    rw [e1]
    exact satAdd_eq _ _ hle2
  rw [hs2, get_key_balance_insert, e2, e1]
  simp only [satSub, Except.ok.injEq]
  omega

/-- C5 witness: two sponsor calls just above the reserve. -/
theorem C5_sponsor_accumulates_witness :
    get_key_balance
      (send (send ⟨[]⟩ ⟨"airdrop", "alice", 1, ACCESS_KEY_ALLOWANCE + 2,
        validAll, []⟩ 7).1
        ⟨"airdrop", "alice", 1, ACCESS_KEY_ALLOWANCE + 3, validAll, []⟩ 7).1 7 =
      .ok (ACCESS_KEY_ALLOWANCE + 2 + (ACCESS_KEY_ALLOWANCE + 3) -
        2 * ACCESS_KEY_ALLOWANCE) :=
  C5_sponsor_accumulates ⟨[]⟩
    ⟨"airdrop", "alice", 1, ACCESS_KEY_ALLOWANCE + 2, validAll, []⟩
    ⟨"airdrop", "alice", 1, ACCESS_KEY_ALLOWANCE + 3, validAll, []⟩
    7 (ACCESS_KEY_ALLOWANCE + 2) (ACCESS_KEY_ALLOWANCE + 3)
    rfl rfl rfl (by decide) (by decide) (by decide)

/-- Unit scale of the spec's scenario numbers: with amounts counted in units
of 10^18 attounc, the code's reserve `ACCESS_KEY_ALLOWANCE` is exactly the
scenario's `R = 1_000_000` units. -/
def unitScale : Nat := 1000000000000000000

/-- Scenario: sponsor key 2 with 2_000_000 units attached. -/
def envSponsorK2 : Env := ⟨"airdrop", "alice", 0, 2000000 * unitScale, validAll, []⟩

/-- Scenario state and grant after the sponsor call. -/
def sponsorK2 : AirDrop × Except ContractError (List Dispatch) :=
  send ⟨[]⟩ envSponsorK2 2

/-- Contract access keys after the sponsor call. -/
def capsAfterSponsor : List PublicKey :=
  applyDispatches "airdrop" [] (okDispatches sponsorK2.2)

/-- Scenario: the capability-gated `create_account_and_claim`, signed by key 2. -/
def envClaimK2 : Env := ⟨"airdrop", "airdrop", 2, 0, validAll, []⟩

/-- Scenario state and dispatch of `create_account_and_claim`. -/
def claimK2 : AirDrop × Except ContractError (List Dispatch) :=
  create_account_and_claim sponsorK2.1 envClaimK2 "new.airdrop" 3

/-- Scenario: the completion callback with a failed remote result, key 2. -/
def envCbFailK2 : Env := ⟨"airdrop", "airdrop", 2, 0, validAll, [false]⟩

/-- Scenario state after the compensating continuation, which receives the
amount carried by the registered callback. -/
def cbK2 : AirDrop × Except ContractError (List Dispatch × Bool) :=
  on_account_created_and_claimed claimK2.1 envCbFailK2
    (2000000 * unitScale - ACCESS_KEY_ALLOWANCE)

/-- Contract access keys at the end of the scenario. -/
def capsAfterCb : List PublicKey :=
  applyDispatches "airdrop"
    (applyDispatches "airdrop" capsAfterSponsor (okDispatches claimK2.2))
    (okDispatchesCb cbK2.2)

/-- C4 counterexample: in the sponsor-2_000_000-then-failed-claim scenario the
continuation restores `peek(K2)` to `2_000_000 - R` units, which is not the
claimed `1_000_000 - R` units. -/
theorem C4_counterexample :
    get_key_balance cbK2.1 2 =
      .ok (2000000 * unitScale - ACCESS_KEY_ALLOWANCE) ∧
    get_key_balance cbK2.1 2 ≠
      .ok (satSub (1000000 * unitScale) ACCESS_KEY_ALLOWANCE) := by
  refine ⟨rfl, by decide⟩

/-- C4 amended: with the reserve `R = ACCESS_KEY_ALLOWANCE` (1_000_000 units
of 10^18 attounc), after `sponsor(K2, 2_000_000 units)` and a
`create_and_claim` whose remote step fails, the continuation restores
`peek(K2) == 2_000_000 units - R` — the exact pre-claim balance, which the
dispatched callback carried — the capability for K2 is still present, and the
caller may retry with the very same result as the first claim. -/
theorem C4_compensation_scenario :
    get_key_balance sponsorK2.1 2 =
      .ok (2000000 * unitScale - ACCESS_KEY_ALLOWANCE) ∧
    claimK2 = (⟨[]⟩, .ok [⟨"new.airdrop",
      [Action.create_account, Action.add_full_access_key 3,
       Action.transfer (2000000 * unitScale - ACCESS_KEY_ALLOWANCE)],
      some (.on_account_created_and_claimed
        (2000000 * unitScale - ACCESS_KEY_ALLOWANCE))⟩]) ∧
    get_key_balance cbK2.1 2 =
      .ok (2000000 * unitScale - ACCESS_KEY_ALLOWANCE) ∧
    capsAfterCb.contains 2 = true ∧
    create_account_and_claim cbK2.1 envClaimK2 "new.airdrop" 3 = claimK2 := by
  refine ⟨rfl, rfl, rfl, rfl, rfl⟩

end Airdrop
